import Mathlib

/-!
# Clone kinds of the split-clone worker

A verification development over `go/vt/worker/split_clone_type.go`:

```go
type cloneType int

const (
	horizontalResharding cloneType = iota
	verticalSplit
)

type splitCloneInitializer interface {
}
```

The file declares a defined integer type with two constants and an interface
with an empty method set.  The embedding below keeps the integer nature of
`cloneType` (a Go defined type over `int` is inhabited by every `int`, not only
by its named constants) and represents an interface by its method set.
-/

namespace Worker

/-! ## `type cloneType int` -/

/-- Go: `type cloneType int`.  A defined type whose underlying type is `int`;
its values are the values of `int`, carried here as an integer. -/
structure cloneType where
  /-- The underlying `int`. -/
  val : Int
deriving DecidableEq, Repr

/-- The values an `int` of `w` bits can hold (`w` is 32 or 64 depending on the
platform): the two's-complement range. -/
def cloneType.inRange (w : Nat) (k : cloneType) : Prop :=
  -((2 : Int) ^ (w - 1)) ≤ k.val ∧ k.val < (2 : Int) ^ (w - 1)

/-- Go's `a == b` on operands of type `cloneType`: comparison of the
underlying integers. -/
def cloneType.eq (a b : cloneType) : Bool :=
  decide (a.val = b.val)

/-- Go's `a != b` on operands of type `cloneType`. -/
def cloneType.ne (a b : cloneType) : Bool :=
  !(cloneType.eq a b)

/-- The zero value of `cloneType` (the value of `var k cloneType`): the zero
value of its underlying type `int`. -/
def cloneType.zero : cloneType :=
  ⟨0⟩

/-! ## The constant block -/

/-- The value of `iota` in the constant specification at position `specIndex`
of a parenthesised `const` block (positions count from zero). -/
def iota (specIndex : Nat) : Int :=
  Int.ofNat specIndex

/-- Go: `horizontalResharding cloneType = iota`, the first specification of the
block. -/
def horizontalResharding : cloneType :=
  ⟨iota 0⟩

/-- Go: `verticalSplit`, the second specification of the block; it repeats the
preceding type and expression, `cloneType = iota`. -/
def verticalSplit : cloneType :=
  ⟨iota 1⟩

/-- The constants declared by the `const` block, in source order. -/
def declaredCloneTypes : List cloneType :=
  [horizontalResharding, verticalSplit]

/-! ## Labels -/

/-- Modelled from the spec: the rendering of a clone kind to a human-readable
label.  The source file declares no rendering function and no method on
`cloneType`; the spec (section 4.1) names the operation and its two results,
"horizontal-resharding" for the horizontal resharding kind and
"vertical-split" for the vertical split kind.  The spec names a label for these
two kinds only, so for any other integer the result is `none`. -/
def cloneType.label (k : cloneType) : Option String :=
  if cloneType.eq k horizontalResharding then some "horizontal-resharding"
  else if cloneType.eq k verticalSplit then some "vertical-split"
  else none

/-! ## `type splitCloneInitializer interface {}` -/

/-- A method of a method set: its name and the types of its parameters and
results. -/
structure MethodSig where
  /-- The method name. -/
  name : String
  /-- The parameter types, in order. -/
  params : List String
  /-- The result types, in order. -/
  results : List String
deriving DecidableEq, Repr

/-- An interface type, given by the methods it requires. -/
structure InterfaceType where
  /-- The required methods. -/
  methods : List MethodSig
deriving DecidableEq, Repr

/-- Go: `type splitCloneInitializer interface { }`.  No method is listed
between the braces. -/
def splitCloneInitializer : InterfaceType :=
  ⟨[]⟩

/-- Go's rule for interface satisfaction: a type whose method set is
`typeMethods` implements `i` when every method of `i` is in `typeMethods`. -/
def InterfaceType.implementedBy (i : InterfaceType) (typeMethods : List MethodSig) : Bool :=
  i.methods.all fun m => decide (m ∈ typeMethods)

/-- Whether a method called `name` may be selected on a value whose static
type is the interface `i`: only the methods of `i` may. -/
def InterfaceType.canInvoke (i : InterfaceType) (name : String) : Bool :=
  i.methods.any fun m => decide (m.name = name)

/-! ## Auxiliary facts -/

theorem cloneType.eq_iff (a b : cloneType) : cloneType.eq a b = true ↔ a = b := by
  cases a with
  | mk x =>
    cases b with
    | mk y => simp [cloneType.eq]

theorem cloneType.ne_iff (a b : cloneType) : cloneType.ne a b = true ↔ a ≠ b := by
  simp [cloneType.ne, ← cloneType.eq_iff]

theorem horizontalResharding_val : horizontalResharding.val = 0 := rfl

theorem verticalSplit_val : verticalSplit.val = 1 := rfl

theorem horizontalResharding_ne_verticalSplit : horizontalResharding ≠ verticalSplit := by
  decide

/-! ## Equality of the declared constants -/

/-- C1: on the two declared clone kinds, `==` is exactly identity of the
declared constant: two entries of the constant block compare equal if and only
if they are the same entry; in particular each constant equals itself and
`horizontalResharding` differs from `verticalSplit`. -/
theorem cloneType_eq_iff_same_declared :
    (∀ i j : Fin declaredCloneTypes.length,
        cloneType.eq (declaredCloneTypes.get i) (declaredCloneTypes.get j) = true ↔ i = j) ∧
    cloneType.eq horizontalResharding horizontalResharding = true ∧
    cloneType.eq verticalSplit verticalSplit = true ∧
    cloneType.eq horizontalResharding verticalSplit = false ∧
    cloneType.eq verticalSplit horizontalResharding = false ∧
    cloneType.ne horizontalResharding verticalSplit = true := by
  refine ⟨?_, rfl, rfl, rfl, rfl, rfl⟩
  decide

/-! ## The values of the type -/

/-- C2, as stated, fails: `cloneType(2)` is a value of the type on every
platform width, and it equals neither declared constant, so not every value of
`cloneType` is `horizontalResharding` or `verticalSplit`. -/
theorem cloneType_two_is_neither :
    cloneType.inRange 32 ⟨2⟩ ∧ cloneType.inRange 64 ⟨2⟩ ∧
    cloneType.eq ⟨2⟩ horizontalResharding = false ∧
    cloneType.eq ⟨2⟩ verticalSplit = false ∧
    ¬ (∀ k : cloneType,
        cloneType.eq k horizontalResharding = true ∨ cloneType.eq k verticalSplit = true) := by
  refine ⟨?_, ?_, rfl, rfl, ?_⟩
  · norm_num [cloneType.inRange]
  · norm_num [cloneType.inRange]
  · intro h
    have h2 := h ⟨2⟩
    revert h2
    decide

/-- C2, amended: the constant block declares exactly two constants,
`horizontalResharding` and `verticalSplit`, and they are distinct; a value `k`
of `cloneType` satisfies `k == horizontalResharding` or `k == verticalSplit`
exactly when it is one of these two constants, that is, when its integer value
is 0 or 1. -/
theorem cloneType_declared_exactly_two :
    declaredCloneTypes = [horizontalResharding, verticalSplit] ∧
    declaredCloneTypes.length = 2 ∧
    declaredCloneTypes.Nodup ∧
    (∀ k : cloneType,
        (cloneType.eq k horizontalResharding = true ∨ cloneType.eq k verticalSplit = true)
          ↔ k ∈ declaredCloneTypes) ∧
    (∀ k : cloneType, k ∈ declaredCloneTypes ↔ (k.val = 0 ∨ k.val = 1)) := by
  refine ⟨rfl, rfl, by decide, ?_, ?_⟩
  · intro k
    simp [declaredCloneTypes, cloneType.eq_iff]
  · intro k
    cases k with
    | mk v =>
      simp [declaredCloneTypes, horizontalResharding, verticalSplit, iota]

/-! ## Rendering -/

/-- C3: each clone kind renders to its label: `horizontalResharding` yields
"horizontal-resharding" and `verticalSplit` yields "vertical-split", and every
declared clone kind has a label, so rendering a clone kind has no error
condition. -/
theorem cloneType_label_declared :
    cloneType.label horizontalResharding = some "horizontal-resharding" ∧
    cloneType.label verticalSplit = some "vertical-split" ∧
    (∀ i : Fin declaredCloneTypes.length,
        (cloneType.label (declaredCloneTypes.get i)).isSome = true) := by
  refine ⟨rfl, rfl, ?_⟩
  decide

/-! ## The empty interface -/

/-- C4: `splitCloneInitializer` requires no method, so a type with any method
set whatsoever implements it, and no method can be selected on a value known
only as a `splitCloneInitializer`. -/
theorem splitCloneInitializer_is_empty :
    splitCloneInitializer.methods = [] ∧
    (∀ typeMethods : List MethodSig,
        InterfaceType.implementedBy splitCloneInitializer typeMethods = true) ∧
    (∀ name : String, InterfaceType.canInvoke splitCloneInitializer name = false) := by
  refine ⟨rfl, ?_, ?_⟩
  · intro typeMethods
    rfl
  · intro name
    rfl

/-! ## Integer values of the constants -/

/-- C6: `iota` gives `horizontalResharding` the value 0 and `verticalSplit` the
value 1; hence the zero value of `cloneType` is `horizontalResharding` and is
not `verticalSplit`. -/
theorem cloneType_iota_values :
    horizontalResharding.val = 0 ∧
    verticalSplit.val = 1 ∧
    cloneType.zero = horizontalResharding ∧
    cloneType.zero ≠ verticalSplit ∧
    cloneType.eq cloneType.zero horizontalResharding = true ∧
    cloneType.eq cloneType.zero verticalSplit = false := by
  refine ⟨rfl, rfl, rfl, ?_, rfl, rfl⟩
  decide

end Worker
